import Mathlib

/-!
Shallow embedding of `src/data/fetch_stock_data.py` (repository
SeanFeng91/worldtariff): a sequential fetch-and-persist loop over a static
symbol registry.  Each iteration issues one HTTP GET, parses the body as
JSON, classifies the parsed object, on success writes the extracted
"Time Series (Daily)" sub-object to `<OUTPUT_DIR>/<symbol>.json`, and then
sleeps when `symbols_processed < total_symbols`.  Outcomes of the external
world (HTTP, JSON parse, file write, directory creation) are inputs to the
model; everything the script itself computes is translated directly.
-/

namespace StockFetch

/-- Configuration constant: the Alpha Vantage API key embedded in the source. -/
def ALPHA_VANTAGE_API_KEY : String := "SFQWOYE7LHWY8WMC"

/-- Configuration constant: the static symbol registry, an ordered mapping
from ticker code to display label (`SYMBOLS` in the source). -/
def SYMBOLS : List (String × String) :=
  [("SPY", "S&P 500 (SPY)"),
   ("QQQ", "Nasdaq (QQQ)"),
   ("EXS1.DE", "DAX (EXS1.DE)"),
   ("ASHR", "China A50 (ASHR)"),
   ("EWJ", "Japan (EWJ)")]

/-- Configuration constant: output directory for the saved JSON files. -/
def OUTPUT_DIR : String := "data/stock"

/-- Configuration constant: the API base URL. -/
def BASE_URL : String := "https://www.alphavantage.co/query"

/-- Configuration constant: the API function name. -/
def FUNCTION : String := "TIME_SERIES_DAILY"

/-- Configuration constant: the requested output size. -/
def OUTPUT_SIZE : String := "compact"

/-- Configuration constant: seconds waited between calls
(`call_interval_seconds` in the source). -/
def call_interval_seconds : Nat := 15

/-- Request parameters built for one symbol (the `params` dict in the source). -/
def build_params (symbol : String) : List (String × String) :=
  [("function", FUNCTION),
   ("symbol", symbol),
   ("outputsize", OUTPUT_SIZE),
   ("apikey", ALPHA_VANTAGE_API_KEY),
   ("datatype", "json")]

/-- JSON values, as produced by `response.json()`. -/
inductive Json where
  | str (s : String)
  | num (n : Int)
  | bool (b : Bool)
  | null
  | arr (items : List Json)
  | obj (fields : List (String × Json))

/-- Substring test on character lists: does the needle occur contiguously in
the haystack?  This is Python's `needle in haystack` for strings. -/
def charsContain (needle : List Char) : List Char → Bool
  | [] => needle.isEmpty
  | c :: cs => needle.isPrefixOf (c :: cs) || charsContain needle cs

/-- Python's `needle in haystack` for two strings: substring containment. -/
def strContainsSubstr (needle hay : String) : Bool :=
  charsContain needle.data hay.data

/-- Python's `needle in v` for a string needle and an arbitrary JSON value
`v`: substring test on strings, key membership on objects, element
membership on arrays (a string equals only an equal string), and a
`TypeError` (modelled as `.error ()`) on every other value. -/
def pyIn (needle : String) : Json → Except Unit Bool
  | .str s => .ok (strContainsSubstr needle s)
  | .obj fields => .ok (fields.any (fun f => f.1 == needle))
  | .arr items =>
      .ok (items.any (fun j => match j with | .str s => s == needle | _ => false))
  | _ => .error ()

/-- Classification of a parsed response object, following the dispatch in the
source (lines 71-92): the four key checks in order, a `raised` case for a
`TypeError` thrown by `"API call frequency" in data["Note"]` on a non-string
`Note` value (caught by the catch-all handler), and `persist` carrying the
extracted `"Time Series (Daily)"` value. -/
inductive Classification where
  | errorMessage
  | rateLimitNote
  | information
  | persist (ts : Json)
  | missingExpectedKey
  | raised

/-- Key under which the time series lives (`time_series_key` in the source). -/
def time_series_key : String := "Time Series (Daily)"

/-- Classification after the "Error Message" and "Note" checks have both
fallen through: the "Information" check, then the `time_series_key` check. -/
def classifyRest (data : List (String × Json)) : Classification :=
  if (data.lookup "Information").isSome then .information
  else
    match data.lookup time_series_key with
    | some ts => .persist ts
    | none => .missingExpectedKey

/-- Classification of a parsed response object: `"Error Message" in data`,
then `"Note" in data and "API call frequency" in data["Note"]`, then the
rest.  A `TypeError` from the short-circuited containment test yields
`.raised`. -/
def classify (data : List (String × Json)) : Classification :=
  if (data.lookup "Error Message").isSome then .errorMessage
  else
    match data.lookup "Note" with
    | some v =>
        match pyIn "API call frequency" v with
        | .error _ => .raised
        | .ok true => .rateLimitNote
        | .ok false => classifyRest data
    | none => classifyRest data

/-- Outcome of the HTTP GET plus JSON parse for one symbol, an input to the
model: `httpError` is a `requests` exception (including the one raised by
`raise_for_status` on a non-2xx status), `jsonError` a `JSONDecodeError`,
`otherError` any other exception thrown before classification, and
`parsed` a successfully decoded JSON object. -/
inductive FetchResult where
  | httpError
  | jsonError
  | otherError
  | parsed (data : List (String × Json))

/-- Per-symbol input to the model: the fetch outcome and whether the file
write (`open` + `json.dump`) succeeds when attempted. -/
structure SymbolInput where
  fetch : FetchResult
  writeOk : Bool

/-- Output file name for a symbol: `f"{symbol}.json"` in the source. -/
def file_name (symbol : String) : String := symbol ++ ".json"

/-- Output path for a symbol: `os.path.join(OUTPUT_DIR, file_name)`. -/
def output_path (symbol : String) : String := OUTPUT_DIR ++ "/" ++ file_name symbol

/-- Result of one iteration body: the file written (path and content), if
any, and whether `symbols_processed += 1` ran. -/
structure StepResult where
  written : Option (String × Json)
  succeeded : Bool

/-- One iteration body for one symbol, given the external outcomes: every
exception is caught inside the loop, so this is total.  A file is written,
and the success counter incremented, exactly when the response parsed, the
classification reached `persist`, and the write itself succeeded. -/
def processSymbol (symbol : String) (inp : SymbolInput) : StepResult :=
  match inp.fetch with
  | .httpError => ⟨none, false⟩
  | .jsonError => ⟨none, false⟩
  | .otherError => ⟨none, false⟩
  | .parsed data =>
      match classify data with
      | .persist ts =>
          if inp.writeOk then ⟨some (output_path symbol, ts), true⟩
          else ⟨none, false⟩
      | _ => ⟨none, false⟩

/-- Mutable state of the run: the success counter `symbols_processed`, the
files written so far (in order), the number of `time.sleep` invocations,
and the number of HTTP requests issued. -/
structure RunState where
  symbols_processed : Nat
  files : List (String × Json)
  sleeps : Nat
  requests_issued : Nat

/-- State at loop entry: `symbols_processed = 0`, nothing written. -/
def initial_state : RunState := ⟨0, [], 0, 0⟩

/-- One full loop iteration: issue the request, run the body, then
`if symbols_processed < total_symbols: time.sleep(...)` — the guard in the
source tests the success counter, not the iteration index. -/
def step (total : Nat) (st : RunState) (entry : String × SymbolInput) : RunState :=
  let r := processSymbol entry.1 entry.2
  let files := match r.written with
    | some f => st.files ++ [f]
    | none => st.files
  let processed :=
    if r.succeeded then st.symbols_processed + 1 else st.symbols_processed
  let sleeps := if processed < total then st.sleeps + 1 else st.sleeps
  { symbols_processed := processed
    files := files
    sleeps := sleeps
    requests_issued := st.requests_issued + 1 }

/-- The whole loop: fold `step` over the registry, with
`total_symbols = len(SYMBOLS)` fixed before the loop. -/
def runLoop (total : Nat) (registry : List (String × SymbolInput)) (st : RunState) :
    RunState :=
  registry.foldl (step total) st

/-- The function `fetch_and_save_stock_data`: if the output directory cannot
be created the run aborts before any fetch (`return`, modelled as `none`);
otherwise the loop runs over every registry entry and the final state is
returned for the summary print. -/
def fetch_and_save_stock_data (dirOk : Bool)
    (registry : List (String × SymbolInput)) : Option RunState :=
  if dirOk then some (runLoop registry.length registry initial_state) else none

/-- Summary printed after the loop: successes out of total. -/
def run_summary (dirOk : Bool) (registry : List (String × SymbolInput)) :
    Option (Nat × Nat) :=
  (fetch_and_save_stock_data dirOk registry).map
    (fun st => (st.symbols_processed, registry.length))

/-- Boolean guard saying the "Note" check fell through without raising:
either no "Note" key, or its value's containment test evaluated to `false`. -/
def note_not_rate_limit (data : List (String × Json)) : Bool :=
  match data.lookup "Note" with
  | none => true
  | some v =>
      match pyIn "API call frequency" v with
      | .ok false => true
      | _ => false

lemma classifyRest_persist {data : List (String × Json)} {ts : Json}
    (h : classifyRest data = .persist ts) :
    data.lookup time_series_key = some ts := by
  unfold classifyRest at h
  split at h
  · simp at h
  · split at h
    · rename_i heq
      injection h with h
      rw [heq, h]
    · simp at h

lemma classify_persist_lookup {data : List (String × Json)} {ts : Json}
    (h : classify data = .persist ts) :
    data.lookup time_series_key = some ts := by
  unfold classify at h
  split at h
  · simp at h
  · split at h
    · split at h
      · simp at h
      · simp at h
      · exact classifyRest_persist h
    · exact classifyRest_persist h

lemma processSymbol_written {sym : String} {inp : SymbolInput} {n : String}
    {c : Json} (h : (processSymbol sym inp).written = some (n, c)) :
    ∃ data, inp.fetch = .parsed data ∧ classify data = .persist c ∧
      inp.writeOk = true ∧ n = output_path sym := by
  unfold processSymbol at h
  split at h
  · simp at h
  · simp at h
  · simp at h
  · rename_i data hdata
    split at h
    · rename_i ts hts
      split at h
      · rename_i hw
        simp at h
        obtain ⟨h1, h2⟩ := h
        exact ⟨data, hdata, h2 ▸ hts, hw, h1.symm⟩
      · simp at h
    · simp at h

lemma classify_fallthrough {data : List (String × Json)}
    (hEM : data.lookup "Error Message" = none)
    (hnote : note_not_rate_limit data = true) :
    classify data = classifyRest data := by
  unfold note_not_rate_limit at hnote
  unfold classify
  rw [hEM]
  cases hN : data.lookup "Note" with
  | none => simp
  | some v =>
      rw [hN] at hnote
      have hnote' : (match pyIn "API call frequency" v with
          | .ok false => true
          | _ => false) = true := hnote
      show (match pyIn "API call frequency" v with
          | .error _ => Classification.raised
          | .ok true => Classification.rateLimitNote
          | .ok false => classifyRest data) = classifyRest data
      cases hpv : pyIn "API call frequency" v with
      | error e => rw [hpv] at hnote'; simp at hnote'
      | ok b =>
          cases b with
          | false => rfl
          | true => rw [hpv] at hnote'; simp at hnote'

lemma runLoop_cons (total : Nat) (e : String × SymbolInput)
    (l : List (String × SymbolInput)) (st : RunState) :
    runLoop total (e :: l) st = runLoop total l (step total st e) := rfl

lemma step_requests (total : Nat) (st : RunState) (e : String × SymbolInput) :
    (step total st e).requests_issued = st.requests_issued + 1 := rfl

lemma runLoop_requests_issued (total : Nat) :
    ∀ (l : List (String × SymbolInput)) (st : RunState),
      (runLoop total l st).requests_issued = st.requests_issued + l.length := by
  intro l
  induction l with
  | nil => intro st; rfl
  | cons e l ih =>
      intro st
      rw [runLoop_cons, ih, step_requests]
      simp [List.length_cons]
      omega

lemma runLoop_files_sound (total : Nat) :
    ∀ (l : List (String × SymbolInput)) (st : RunState),
      ∀ f ∈ (runLoop total l st).files,
        f ∈ st.files ∨
        ∃ sym inp data, (sym, inp) ∈ l ∧ inp.fetch = .parsed data ∧
          data.lookup time_series_key = some f.2 ∧ f.1 = output_path sym := by
  intro l
  induction l with
  | nil => intro st f hf; exact Or.inl hf
  | cons e l ih =>
      intro st f hf
      rw [runLoop_cons] at hf
      rcases ih (step total st e) f hf with h | ⟨sym, inp, data, hmem, h2, h3, h4⟩
      · have hstep : (step total st e).files =
            match (processSymbol e.1 e.2).written with
            | some g => st.files ++ [g]
            | none => st.files := rfl
        rw [hstep] at h
        cases hwr : (processSymbol e.1 e.2).written with
        | none => rw [hwr] at h; exact Or.inl h
        | some g =>
            rw [hwr] at h
            rcases List.mem_append.mp h with h | h
            · exact Or.inl h
            · obtain rfl : f = g := List.mem_singleton.mp h
              obtain ⟨data, hd, hcl, _, hn⟩ := processSymbol_written hwr
              refine Or.inr ⟨e.1, e.2, data, ?_, hd, classify_persist_lookup hcl, hn⟩
              rw [Prod.mk.eta]
              exact List.mem_cons_self e l
      · exact Or.inr ⟨sym, inp, data, List.mem_cons_of_mem e hmem, h2, h3, h4⟩

lemma runLoop_processed_all_success (total : Nat) :
    ∀ (l : List (String × SymbolInput)) (st : RunState),
      (∀ p ∈ l, (processSymbol p.1 p.2).succeeded = true) →
      (runLoop total l st).symbols_processed = st.symbols_processed + l.length := by
  intro l
  induction l with
  | nil => intro st _; rfl
  | cons e l ih =>
      intro st h
      rw [runLoop_cons, ih _ (fun p hp => h p (List.mem_cons_of_mem e hp))]
      have hs : (step total st e).symbols_processed = st.symbols_processed + 1 := by
        have he := h e (List.mem_cons_self e l)
        simp [step, he]
      rw [hs]
      simp [List.length_cons]
      omega

lemma runLoop_processed_le (total : Nat) :
    ∀ (l : List (String × SymbolInput)) (st : RunState),
      (runLoop total l st).symbols_processed ≤ st.symbols_processed + l.length := by
  intro l
  induction l with
  | nil => intro st; simp [runLoop]
  | cons e l ih =>
      intro st
      rw [runLoop_cons]
      refine le_trans (ih (step total st e)) ?_
      have hb : (step total st e).symbols_processed ≤ st.symbols_processed + 1 := by
        cases hs : (processSymbol e.1 e.2).succeeded <;> simp [step, hs]
      simp [List.length_cons]
      omega

/-- C1: the spec says the inter-call sleep runs exactly N-1 times for N
symbols, regardless of successes and failures.  The code guards the sleep
with `symbols_processed < total_symbols`, where `symbols_processed` is the
success counter, so a run over one symbol whose request fails sleeps once
instead of zero times.  This theorem evaluates the run at that failing
input. -/
theorem c1_sleep_runs_after_failed_last_symbol :
    (fetch_and_save_stock_data true [("SPY", ⟨.httpError, true⟩)]).map
      RunState.sleeps = some 1 := rfl

/-- C2: every file recorded by a completed run holds exactly the value found
under the "Time Series (Daily)" key of some registry symbol's parsed
response — never the full response envelope — and sits at that symbol's
output path. -/
theorem c2_persisted_file_is_time_series_value (dirOk : Bool)
    (registry : List (String × SymbolInput)) (st : RunState)
    (hrun : fetch_and_save_stock_data dirOk registry = some st)
    (f : String × Json) (hf : f ∈ st.files) :
    ∃ sym inp data, (sym, inp) ∈ registry ∧ inp.fetch = .parsed data ∧
      data.lookup time_series_key = some f.2 ∧ f.1 = output_path sym := by
  unfold fetch_and_save_stock_data at hrun
  split at hrun
  · injection hrun with hrun
    subst hrun
    rcases runLoop_files_sound registry.length registry initial_state f hf with
      h | h
    · simp [initial_state] at h
    · exact h
  · exact absurd hrun (by simp)

/-- Witness for C2: a one-symbol run with a successful response writes the
file `data/stock/SPY.json` holding the extracted time-series value. -/
theorem c2_witness :
    ∃ sym inp data,
      (sym, inp) ∈
        [("SPY",
          (⟨.parsed [("Time Series (Daily)", Json.str "ohlcv")], true⟩ :
            SymbolInput))] ∧
      inp.fetch = FetchResult.parsed data ∧
      data.lookup time_series_key = some (Json.str "ohlcv") ∧
      "data/stock/SPY.json" = output_path sym := by
  simpa using
    c2_persisted_file_is_time_series_value true
      [("SPY",
        (⟨.parsed [("Time Series (Daily)", Json.str "ohlcv")], true⟩ :
          SymbolInput))]
      ⟨1, [("data/stock/SPY.json", Json.str "ohlcv")], 0, 1⟩ rfl
      ("data/stock/SPY.json", Json.str "ohlcv") (List.Mem.head _)

/-- C3: a parsed response is classified in priority order — "Error Message"
first, then a "Note" whose value contains "API call frequency", then
"Information", then "Time Series (Daily)" (persisted), and otherwise the
missing-expected-key skip. -/
theorem c3_classification_priority (data : List (String × Json)) (v t : Json) :
    ((data.lookup "Error Message").isSome = true →
      classify data = .errorMessage) ∧
    (data.lookup "Error Message" = none → data.lookup "Note" = some v →
      pyIn "API call frequency" v = .ok true →
      classify data = .rateLimitNote) ∧
    (data.lookup "Error Message" = none → note_not_rate_limit data = true →
      (data.lookup "Information").isSome = true →
      classify data = .information) ∧
    (data.lookup "Error Message" = none → note_not_rate_limit data = true →
      data.lookup "Information" = none →
      data.lookup time_series_key = some t →
      classify data = .persist t) ∧
    (data.lookup "Error Message" = none → note_not_rate_limit data = true →
      data.lookup "Information" = none →
      data.lookup time_series_key = none →
      classify data = .missingExpectedKey) := by
  refine ⟨?_, ?_, ?_, ?_, ?_⟩
  · intro h
    simp [classify, h]
  · intro hEM hN hv
    simp [classify, hEM, hN, hv]
  · intro hEM hnote hInfo
    rw [classify_fallthrough hEM hnote]
    simp [classifyRest, hInfo]
  · intro hEM hnote hInfo hTS
    rw [classify_fallthrough hEM hnote]
    simp [classifyRest, hInfo, hTS]
  · intro hEM hnote hInfo hTS
    rw [classify_fallthrough hEM hnote]
    simp [classifyRest, hInfo, hTS]

/-- Witness for C3: one concrete response per branch of the priority order. -/
theorem c3_witness :
    classify [("Error Message", Json.str "bad")] = .errorMessage ∧
    classify [("Note", Json.str "API call frequency exceeded")] =
      .rateLimitNote ∧
    classify [("Note", Json.str "hello"), ("Information", Json.str "fyi")] =
      .information ∧
    classify [("Time Series (Daily)", Json.obj [])] = .persist (Json.obj []) ∧
    classify [("Meta Data", Json.str "m")] = .missingExpectedKey :=
  ⟨(c3_classification_priority _ Json.null Json.null).1 rfl,
   (c3_classification_priority _ (Json.str "API call frequency exceeded")
      Json.null).2.1 rfl rfl rfl,
   (c3_classification_priority _ Json.null Json.null).2.2.1 rfl rfl rfl,
   (c3_classification_priority _ Json.null (Json.obj [])).2.2.2.1
      rfl rfl rfl rfl,
   (c3_classification_priority _ Json.null Json.null).2.2.2.2
      rfl rfl rfl rfl⟩

/-- C4: a response carrying an "Error Message" key leaves the file list and
the success counter of the run state unchanged at that iteration. -/
theorem c4_error_message_no_write_no_increment (total : Nat) (st : RunState)
    (sym : String) (data : List (String × Json)) (w : Bool) (v : Json)
    (h : data.lookup "Error Message" = some v) :
    (step total st (sym, ⟨.parsed data, w⟩)).files = st.files ∧
    (step total st (sym, ⟨.parsed data, w⟩)).symbols_processed =
      st.symbols_processed := by
  have hc : classify data = .errorMessage := by simp [classify, h]
  constructor <;> simp [step, processSymbol, hc]

/-- Witness for C4: a concrete "Error Message" response at the initial
state. -/
theorem c4_witness :
    (step 5 initial_state
        ("SPY",
          ⟨.parsed [("Error Message", Json.str "Invalid API call")],
            true⟩)).files = initial_state.files ∧
    (step 5 initial_state
        ("SPY",
          ⟨.parsed [("Error Message", Json.str "Invalid API call")],
            true⟩)).symbols_processed = initial_state.symbols_processed :=
  c4_error_message_no_write_no_increment 5 initial_state "SPY" _ true
    (Json.str "Invalid API call") rfl

/-- C5: a failed directory creation aborts the run before any request is
issued, while with the directory available the run issues one request per
registry symbol, whatever each symbol's failure mode is — no per-symbol
failure stops the loop. -/
theorem c5_only_dir_failure_aborts (registry : List (String × SymbolInput)) :
    fetch_and_save_stock_data false registry = none ∧
    ∃ st, fetch_and_save_stock_data true registry = some st ∧
      st.requests_issued = registry.length := by
  refine ⟨rfl, runLoop registry.length registry initial_state, rfl, ?_⟩
  rw [runLoop_requests_issued]
  simp [initial_state]

/-- C6: whenever the iteration body for a registry symbol writes a file, the
file's path is the output directory joined with the ticker code taken
verbatim plus ".json". -/
theorem c6_output_file_name_verbatim (p : String × String) (_hp : p ∈ SYMBOLS)
    (inp : SymbolInput) (n : String) (c : Json)
    (hw : (processSymbol p.1 inp).written = some (n, c)) :
    n = OUTPUT_DIR ++ "/" ++ p.1 ++ ".json" := by
  obtain ⟨data, _, _, _, hn⟩ := processSymbol_written hw
  rw [hn]
  unfold output_path file_name
  simp [String.append_assoc]

/-- Witness for C6: the registry symbol "EXS1.DE", whose ticker contains a
literal period, is written to `data/stock/EXS1.DE.json`. -/
theorem c6_witness :
    ("EXS1.DE", "DAX (EXS1.DE)") ∈ SYMBOLS ∧
    "data/stock/EXS1.DE.json" = OUTPUT_DIR ++ "/" ++ "EXS1.DE" ++ ".json" :=
  ⟨by decide,
   c6_output_file_name_verbatim ("EXS1.DE", "DAX (EXS1.DE)") (by decide)
     ⟨.parsed [(time_series_key, Json.null)], true⟩
     "data/stock/EXS1.DE.json" Json.null rfl⟩

/-- C7: an HTTP failure (including a non-2xx status raised by
`raise_for_status`) leaves the files and the success counter unchanged for
that symbol, and the loop goes on to process exactly the remaining symbols
— the symbol is handled once, with no retry. -/
theorem c7_http_error_skips_symbol_and_continues (total : Nat) (st : RunState)
    (sym : String) (w : Bool) (rest : List (String × SymbolInput)) :
    (step total st (sym, ⟨.httpError, w⟩)).files = st.files ∧
    (step total st (sym, ⟨.httpError, w⟩)).symbols_processed =
      st.symbols_processed ∧
    runLoop total ((sym, ⟨.httpError, w⟩) :: rest) st =
      runLoop total rest (step total st (sym, ⟨.httpError, w⟩)) :=
  ⟨rfl, rfl, rfl⟩

/-- C8: when every registry symbol succeeds, the summary printed after the
loop reports N out of N. -/
theorem c8_summary_all_success (registry : List (String × SymbolInput))
    (h : ∀ p ∈ registry, (processSymbol p.1 p.2).succeeded = true) :
    run_summary true registry = some (registry.length, registry.length) := by
  have hp : (runLoop registry.length registry initial_state).symbols_processed =
      registry.length := by
    rw [runLoop_processed_all_success registry.length registry initial_state h]
    simp [initial_state]
  show some ((runLoop registry.length registry
      initial_state).symbols_processed, registry.length) =
    some (registry.length, registry.length)
  rw [hp]

/-- Witness for C8: a two-symbol registry where both responses carry the
time series and both writes succeed reports 2 out of 2. -/
theorem c8_witness :
    run_summary true
      [("SPY",
        (⟨.parsed [("Time Series (Daily)", Json.obj [])], true⟩ :
          SymbolInput)),
       ("QQQ",
        (⟨.parsed [("Time Series (Daily)", Json.obj [])], true⟩ :
          SymbolInput))] = some (2, 2) :=
  c8_summary_all_success _ (by decide)

/-- C9: a "Note" whose string value does not contain "API call frequency" is
not classified as a rate limit; with none of the other recognized keys
present the response lands in the missing-expected-key branch and the
symbol is skipped with no file written. -/
theorem c9_note_without_frequency_not_rate_limited
    (data : List (String × Json)) (s : String)
    (hEM : data.lookup "Error Message" = none)
    (hN : data.lookup "Note" = some (.str s))
    (hs : strContainsSubstr "API call frequency" s = false)
    (hInfo : data.lookup "Information" = none)
    (hTS : data.lookup time_series_key = none) :
    classify data ≠ .rateLimitNote ∧
    classify data = .missingExpectedKey ∧
    ∀ sym w, processSymbol sym ⟨.parsed data, w⟩ = ⟨none, false⟩ := by
  have hnote : note_not_rate_limit data = true := by
    unfold note_not_rate_limit
    rw [hN]
    simp [pyIn, hs]
  have hc : classify data = .missingExpectedKey := by
    rw [classify_fallthrough hEM hnote]
    simp [classifyRest, hInfo, hTS]
  refine ⟨by rw [hc]; simp, hc, ?_⟩
  intro sym w
  simp [processSymbol, hc]

/-- Witness for C9: a benign thank-you "Note" is not a rate limit and the
symbol is skipped. -/
theorem c9_witness :
    classify [("Note", Json.str "thank you for using Alpha Vantage")] ≠
      Classification.rateLimitNote ∧
    classify [("Note", Json.str "thank you for using Alpha Vantage")] =
      Classification.missingExpectedKey ∧
    processSymbol "QQQ"
      ⟨.parsed [("Note", Json.str "thank you for using Alpha Vantage")],
        true⟩ = ⟨none, false⟩ := by
  obtain ⟨h1, h2, h3⟩ :=
    c9_note_without_frequency_not_rate_limited
      [("Note", Json.str "thank you for using Alpha Vantage")]
      "thank you for using Alpha Vantage" rfl rfl rfl rfl rfl
  exact ⟨h1, h2, h3 "QQQ" true⟩

/-- C10: the success counter starts at zero, moves by exactly the success
indicator of each iteration (so by at most one, and only when the response
parsed, classified as persistable, and the write succeeded), and ends at
most at the registry size. -/
theorem c10_success_counter_invariants :
    initial_state.symbols_processed = 0 ∧
    (∀ (total : Nat) (st : RunState) (e : String × SymbolInput),
      (step total st e).symbols_processed =
        st.symbols_processed +
          (if (processSymbol e.1 e.2).succeeded then 1 else 0)) ∧
    (∀ (sym : String) (inp : SymbolInput),
      (processSymbol sym inp).succeeded = true ↔
        ∃ data ts, inp.fetch = .parsed data ∧ classify data = .persist ts ∧
          inp.writeOk = true) ∧
    (∀ registry : List (String × SymbolInput),
      (runLoop registry.length registry initial_state).symbols_processed ≤
        registry.length) := by
  refine ⟨rfl, ?_, ?_, ?_⟩
  · intro total st e
    cases hs : (processSymbol e.1 e.2).succeeded <;> simp [step, hs]
  · intro sym inp
    constructor
    · intro h
      unfold processSymbol at h
      split at h
      · simp at h
      · simp at h
      · simp at h
      · rename_i data hd
        split at h
        · rename_i ts hts
          split at h
          · rename_i hwk
            exact ⟨data, ts, hd, hts, hwk⟩
          · simp at h
        · simp at h
    · rintro ⟨data, ts, hd, hcl, hwk⟩
      simp [processSymbol, hd, hcl, hwk]
  · intro registry
    have h := runLoop_processed_le registry.length registry initial_state
    simpa [initial_state] using h

end StockFetch
